import Mathlib

/-!
Verification of the authentication core of the Proyecto1 FastAPI service
(`src/auth.py`, `src/model.py`, `src/main.py`), as a shallow embedding in
Lean 4.

Modelling conventions:
* Time is an abstract `Nat` clock (seconds); `datetime.utcnow()` becomes an
  explicit `now : Nat` argument.
* The process-wide configuration read at import time (`SECRET_KEY`,
  `ALGORITHM`, `ACCESS_TOKEN_EXPIRE_MINUTES`) is threaded as explicit
  parameters where a claim quantifies over it, with the defaults from the
  source kept as constants.
* Python exceptions become `Except`: a raised `HTTPException` is
  `Except.error` carrying the status code and detail string from the source.
* The external libraries (`jose.jwt`, `passlib.CryptContext`) are not part
  of the repository; they are modelled symbolically from their documented
  contracts and from the spec's Token Codec / Password Hasher sections, as
  noted on each definition.
-/

/-- An HTTP error as raised by `fastapi.HTTPException`: status code and
detail message, exactly as in the source. -/
structure HttpError where
  statusCode : Nat
  detail : String
deriving DecidableEq, Repr

/-- A JWT claim value.  The source only ever stores the subject (a string,
`{"sub": user.username}`) and the expiration instant (a datetime); we model
claim values as this two-constructor sum. -/
inductive ClaimVal where
  | str (s : String)
  | time (t : Nat)
deriving DecidableEq, Repr

/-- A Python `dict` of claims, as an association list (insertion order kept,
lookup returns the first binding). -/
abbrev Claims := List (String × ClaimVal)

/-- `d.update({k: v})` on a Python dict: the binding for `k` is replaced
(modelled up to lookup semantics: the new binding shadows any old one). -/
def dictUpdate (d : Claims) (k : String) (v : ClaimVal) : Claims :=
  (k, v) :: d.filter (fun p => p.1 != k)

/-- Lookup in a claims dict, Python's `payload.get(k)`. -/
def dictGet (d : Claims) (k : String) : Option ClaimVal :=
  List.lookup k d

/-- `ALGORITHM = "HS256"` (src/auth.py). -/
def ALGORITHM : String := "HS256"

/-- `SECRET_KEY = os.getenv("JWT_SECRET_KEY", "super-secret-key-cambiar")`
(src/auth.py): the environment value if set, else the hardcoded fallback. -/
def SECRET_KEY (env : Option String) : String :=
  env.getD "super-secret-key-cambiar"

/-- `ACCESS_TOKEN_EXPIRE_MINUTES = int(os.getenv(..., "30"))` (src/auth.py). -/
def ACCESS_TOKEN_EXPIRE_MINUTES (env : Option Nat) : Nat :=
  env.getD 30

/-- A signed JWT, modelled symbolically: the claim payload, the key it was
signed with, and the algorithm recorded in its header.  Signature
verification is modelled as equality of the signing key with the verifying
key (the spec's Token Codec: HMAC with a shared symmetric secret). -/
structure JWT where
  payload : Claims
  key : String
  alg : String
deriving DecidableEq, Repr

/-- Modelled from the spec: `jose.jwt.encode(claims, key, algorithm)` is not
repository code; per spec section 4.2 `issue` serialises the claim set and
signs it with the secret key under the fixed algorithm. -/
def jwt_encode (payload : Claims) (key : String) (alg : String) : JWT :=
  ⟨payload, key, alg⟩

/-- Failure modes of `jose.jwt.decode`; all are subclasses of `JWTError`
and hence all are caught uniformly by `verify_token` in the source. -/
inductive JoseError where
  | invalidSignature
  | expiredSignature
  | claimsError
deriving DecidableEq, Repr

/-- Modelled from the spec: `jose.jwt.decode(token, key, algorithms)` is not
repository code; per spec section 4.2 `validate` fails with an invalid-token
error when the algorithm does not match the expected one or the signature
does not verify under the secret key, fails with an expired-token error when
the current time is at or past the claim expiration, and otherwise returns
the claim set.  The library additionally rejects a non-string `sub` claim
(a claims error, also a `JWTError`). -/
def jwt_decode (key : String) (algs : List String) (tok : JWT) (now : Nat) :
    Except JoseError Claims :=
  if tok.alg ∉ algs then .error .invalidSignature
  else if tok.key ≠ key then .error .invalidSignature
  else
    match dictGet tok.payload "exp" with
    | some (.time e) =>
        if e ≤ now then .error .expiredSignature
        else
          match dictGet tok.payload "sub" with
          | some (.time _) => .error .claimsError
          | _ => .ok tok.payload
    | some (.str _) => .error .claimsError
    | none =>
        match dictGet tok.payload "sub" with
        | some (.time _) => .error .claimsError
        | _ => .ok tok.payload

/-- `create_access_token(data, expires_delta)` (src/auth.py): copies the
caller's dict, sets `exp = now + (expires_delta or default)`, and encodes
with the secret key and algorithm.  `expireMinutesEnv` is the
`ACCESS_TOKEN_EXPIRE_MINUTES` configuration; the delta is in seconds. -/
def create_access_token (secretKey : String) (expireMinutesEnv : Option Nat)
    (data : Claims) (expires_delta : Option Nat) (now : Nat) : JWT :=
  let to_encode := data
  let expire := now +
    (match expires_delta with
     | some d => d
     | none => 60 * ACCESS_TOKEN_EXPIRE_MINUTES expireMinutesEnv)
  jwt_encode (dictUpdate to_encode "exp" (.time expire)) secretKey ALGORITHM

/-- The single HTTP error `verify_token` raises on any `JWTError`
(src/auth.py): 401, "Token inválido o expirado". -/
def tokenInvalidOrExpiredErr : HttpError :=
  ⟨401, "Token inválido o expirado"⟩

/-- `verify_token(token)` (src/auth.py): decodes with the secret key and
the singleton algorithm list; any `JWTError` (invalid signature, wrong
algorithm, expired, bad claims) is collapsed into one 401 response. -/
def verify_token (secretKey : String) (tok : JWT) (now : Nat) :
    Except HttpError Claims :=
  match jwt_decode secretKey [ALGORITHM] tok now with
  | .ok payload => .ok payload
  | .error _ => .error tokenInvalidOrExpiredErr

/-- A stored password-hash string.  Modelled from the spec (section 4.1)
and passlib's documented contract, since passlib is not repository code: a
string either is a well-formed bcrypt hash record (salt plus a one-way
digest of the plaintext, modelled ideally as the plaintext itself — the
72-byte truncation and digest collisions of real bcrypt are abstracted
away) or is a string that no configured scheme can identify. -/
inductive HashStr where
  | bcryptHash (salt : Nat) (pw : String)
  | malformed (s : String)
deriving DecidableEq, Repr

/-- Modelled from passlib's documented contract (`CryptContext.verify`
raises `ValueError`/`UnknownHashError` when the hash string cannot be
identified; otherwise recomputes with the record's salt and compares):
the `Except.error` is the raised exception. -/
def cryptContext_verify (plain : String) (h : HashStr) : Except Unit Bool :=
  match h with
  | .bcryptHash _ pw => .ok (plain == pw)
  | .malformed _ => .error ()

/-- Modelled from passlib: `CryptContext.hash` draws a fresh salt (passed
here explicitly) and produces a well-formed bcrypt hash record. -/
def cryptContext_hash (salt : Nat) (plain : String) : HashStr :=
  .bcryptHash salt plain

/-- `verify_password(plain_password, hashed_password)` (src/auth.py): a
bare passthrough to `pwd_context.verify`, with no exception handling. -/
def verify_password (plain_password : String) (hashed_password : HashStr) :
    Except Unit Bool :=
  cryptContext_verify plain_password hashed_password

/-- `get_password_hash(password)` (src/auth.py): passthrough to
`pwd_context.hash`; the fresh salt is made explicit. -/
def get_password_hash (salt : Nat) (password : String) : HashStr :=
  cryptContext_hash salt password

/-- The `Usuario` model (src/model.py): id, username, email, stored
password hash, active flag. -/
structure Usuario where
  id : Nat
  username : String
  email : String
  hashed_password : HashStr
  is_active : Bool
deriving DecidableEq, Repr

/-- The `usuarios` table, as the list of its rows. -/
abbrev UserStore := List Usuario

/-- `get_user_by_username(username)` (src/auth.py): `SELECT ... FROM
usuarios WHERE username = %s` with `fetchone()` — the first row whose
username equals the argument, or `None`. -/
def get_user_by_username (store : UserStore) (username : String) :
    Option Usuario :=
  store.find? (fun u => u.username == username)

/-- `authenticate_user(username, password)` (src/auth.py): look up the
user; if absent return `None`; if the password does not verify return
`None` (a raised exception from `verify_password` propagates); if the user
is inactive return `None`; otherwise return the user. -/
def authenticate_user (store : UserStore) (username password : String) :
    Except Unit (Option Usuario) :=
  match get_user_by_username store username with
  | none => .ok none
  | some user =>
      match verify_password password user.hashed_password with
      | .error e => .error e
      | .ok ok =>
          if !ok then .ok none
          else if !user.is_active then .ok none
          else .ok (some user)

/-- The 403 raised by FastAPI's `HTTPBearer` dependency when the
`Authorization: Bearer` header is absent or malformed, before the handler
body runs. -/
def missingCredentialErr : HttpError := ⟨403, "Not authenticated"⟩

/-- The 401 raised by `get_current_user` when the payload has no `sub`
claim (src/auth.py). -/
def noSubjectErr : HttpError := ⟨401, "Token inválido: no contiene 'sub'"⟩

/-- The 401 raised by `get_current_user` when no user matches the subject
(src/auth.py). -/
def userNotFoundErr : HttpError := ⟨401, "Usuario no encontrado"⟩

/-- The 400 raised by `get_current_active_user` for an inactive user
(src/auth.py). -/
def inactiveUserErr : HttpError := ⟨400, "Usuario inactivo"⟩

/-- `get_current_user` (src/auth.py) together with its `HTTPBearer`
dependency: the extracted bearer token (`none` when the header was absent
or malformed, in which case `HTTPBearer` already raised 403), then
`verify_token`, then the `sub` claim (401 if `None`), then the store
lookup (401 if `None`).  The `some (.time _)` subject case cannot survive
`jwt_decode`'s claim validation; it maps to the same 401 here. -/
def get_current_user (secretKey : String) (store : UserStore) (now : Nat)
    (cred : Option JWT) : Except HttpError Usuario :=
  match cred with
  | none => .error missingCredentialErr
  | some token =>
      match verify_token secretKey token now with
      | .error e => .error e
      | .ok payload =>
          match dictGet payload "sub" with
          | none => .error noSubjectErr
          | some (.time _) => .error noSubjectErr
          | some (.str username) =>
              match get_user_by_username store username with
              | none => .error userNotFoundErr
              | some user => .ok user

/-- `get_current_active_user` (src/auth.py): depends on
`get_current_user`, then rejects inactive users with 400. -/
def get_current_active_user (secretKey : String) (store : UserStore)
    (now : Nat) (cred : Option JWT) : Except HttpError Usuario :=
  match get_current_user secretKey store now cred with
  | .error e => .error e
  | .ok current_user =>
      if !current_user.is_active then .error inactiveUserErr
      else .ok current_user

/-- The spec's Authorization Middleware pipeline (spec section 4.4),
written as one linear chain of checks in the spec's stated order: extract
token (MissingCredential) → validate (propagate the codec failure) →
extract subject (invalid-token error if absent) → resolve user
(UserNotFound) → active flag (InactiveUser) → yield the user.  This is the
refinement target for the middleware claim; the error values are the
concrete HTTP responses the code uses for each named failure. -/
def authMiddlewareSpec (secretKey : String) (store : UserStore) (now : Nat)
    (cred : Option JWT) : Except HttpError Usuario :=
  match cred with
  | none => .error missingCredentialErr
  | some token =>
      match verify_token secretKey token now with
      | .error e => .error e
      | .ok claims =>
          match dictGet claims "sub" with
          | some (.str subject) =>
              match get_user_by_username store subject with
              | some user =>
                  if user.is_active then .ok user
                  else .error inactiveUserErr
              | none => .error userNotFoundErr
          | _ => .error noSubjectErr

/-- The raw body of a `/register` request, before pydantic validation
(src/main.py, model `UsuarioCreate`). -/
structure RawUsuarioCreate where
  username : String
  email : String
  password : String
deriving DecidableEq, Repr

/-- A validated `UsuarioCreate` (src/model.py): pydantic's
`Field(..., min_length=6)` on `password` has been checked. -/
structure UsuarioCreate where
  username : String
  email : String
  password : String
deriving DecidableEq, Repr

/-- Pydantic request-body validation for `UsuarioCreate` (src/model.py):
`password: str = Field(..., min_length=6)` — the request is rejected with
a 422 validation error when the password has fewer than 6 characters,
before the endpoint body runs. -/
def UsuarioCreate.validate (raw : RawUsuarioCreate) :
    Except HttpError UsuarioCreate :=
  if raw.password.length < 6 then
    .error ⟨422, "String should have at least 6 characters"⟩
  else .ok ⟨raw.username, raw.email, raw.password⟩

/-- The observable store operations the `/register` endpoint body performs,
in order: the duplicate-check SELECT, the password hashing, the INSERT. -/
inductive RegisterEffect where
  | lookupDup
  | hashPassword
  | insertRow
deriving DecidableEq, Repr

/-- `UsuarioResponse` (src/model.py): the public fields returned by
`/register` and `/me`. -/
structure UsuarioResponse where
  id : Nat
  username : String
  email : String
  is_active : Bool
deriving DecidableEq, Repr

/-- The `/register` endpoint body (src/main.py `register`): SELECT for an
existing row with the same username or email (400 if found), hash the
password, INSERT the new row with `is_active = True` (the fresh `salt` and
the store-assigned `newId` are explicit).  Returns the response, the
updated store, and the trace of store/hash operations performed. -/
def registerBody (store : UserStore) (salt newId : Nat)
    (usuario : UsuarioCreate) :
    Except HttpError UsuarioResponse × UserStore × List RegisterEffect :=
  match store.find? (fun u =>
      u.username == usuario.username || u.email == usuario.email) with
  | some _ =>
      (.error ⟨400, "El usuario o email ya está registrado"⟩, store,
       [.lookupDup])
  | none =>
      let hashed_password := get_password_hash salt usuario.password
      let newRow : Usuario :=
        ⟨newId, usuario.username, usuario.email, hashed_password, true⟩
      (.ok ⟨newId, usuario.username, usuario.email, true⟩,
       store ++ [newRow], [.lookupDup, .hashPassword, .insertRow])

/-- The `/register` endpoint as seen at the public interface: pydantic
validates the body first; only a validated `UsuarioCreate` reaches the
endpoint body.  A validation failure returns 422 with the store untouched
and no store or hash operation performed. -/
def registerEndpoint (store : UserStore) (salt newId : Nat)
    (raw : RawUsuarioCreate) :
    Except HttpError UsuarioResponse × UserStore × List RegisterEffect :=
  match UsuarioCreate.validate raw with
  | .error e => (.error e, store, [])
  | .ok usuario => registerBody store salt newId usuario

/-- A heap of Python dict objects, for the mutation-level reading of
`create_access_token`: references are indices, `heap.get? r` is the object
at reference `r`. -/
structure PyHeap where
  objs : List Claims
deriving DecidableEq, Repr

/-- `data.copy()` at the heap level: allocate a fresh reference holding a
copy of the dict at `r`. -/
def PyHeap.copyDict (h : PyHeap) (r : Nat) : Nat × PyHeap :=
  (h.objs.length, ⟨h.objs ++ [h.objs.getD r []]⟩)

/-- `d.update({k: v})` at the heap level: mutate the dict at reference `r`
in place. -/
def PyHeap.updateDict (h : PyHeap) (r : Nat) (k : String) (v : ClaimVal) :
    PyHeap :=
  ⟨h.objs.set r (dictUpdate (h.objs.getD r []) k v)⟩

/-- `create_access_token(data, expires_delta)` (src/auth.py) at the heap
level, line by line: `to_encode = data.copy()` allocates a copy,
`to_encode.update({"exp": expire})` mutates only the copy, and the copy is
encoded.  Returns the token and the heap after the call; `dataRef` is the
caller's reference to the argument dict. -/
def createAccessTokenHeap (secretKey : String) (expireMinutesEnv : Option Nat)
    (heap : PyHeap) (dataRef : Nat) (expires_delta : Option Nat) (now : Nat) :
    JWT × PyHeap :=
  let (toEncodeRef, heap1) := heap.copyDict dataRef
  let expire := now +
    (match expires_delta with
     | some d => d
     | none => 60 * ACCESS_TOKEN_EXPIRE_MINUTES expireMinutesEnv)
  let heap2 := heap1.updateDict toEncodeRef "exp" (.time expire)
  (jwt_encode (heap2.objs.getD toEncodeRef []) secretKey ALGORITHM, heap2)

theorem lookup_filter_of_ne (d : Claims) (k k2 : String) (h : k2 ≠ k) :
    List.lookup k2 (List.filter (fun p => p.1 != k) d) = List.lookup k2 d := by
  induction d with
  | nil => rfl
  | cons p d ih =>
      rcases p with ⟨pk, pv⟩
      by_cases hpk : pk = k
      · subst hpk
        have h2 : (k2 == pk) = false := beq_false_of_ne h
        simp only [List.filter, bne_self_eq_false, List.lookup, h2, ih]
      · have h3 : (pk != k) = true := bne_iff_ne.mpr hpk
        simp only [List.filter, h3, List.lookup, ih]

theorem dictGet_update_self (d : Claims) (k : String) (v : ClaimVal) :
    dictGet (dictUpdate d k v) k = some v := by
  simp [dictGet, dictUpdate, List.lookup]

theorem dictGet_update_of_ne (d : Claims) (k k2 : String) (v : ClaimVal)
    (h : k2 ≠ k) : dictGet (dictUpdate d k v) k2 = dictGet d k2 := by
  have h2 : (k2 == k) = false := beq_false_of_ne h
  simp only [dictGet, dictUpdate, List.lookup, h2]
  exact lookup_filter_of_ne d k k2 h

/-- The expiration instant `create_access_token` stamps into the token:
`now` plus the given delta, or the configured default. -/
def tokenExpiry (expireMinutesEnv : Option Nat) (expires_delta : Option Nat)
    (now : Nat) : Nat :=
  now + (match expires_delta with
    | some d => d
    | none => 60 * ACCESS_TOKEN_EXPIRE_MINUTES expireMinutesEnv)

theorem create_access_token_eq (secretKey : String)
    (expireMinutesEnv : Option Nat) (data : Claims)
    (expires_delta : Option Nat) (now : Nat) :
    create_access_token secretKey expireMinutesEnv data expires_delta now =
      ⟨dictUpdate data "exp"
        (ClaimVal.time (tokenExpiry expireMinutesEnv expires_delta now)),
       secretKey, ALGORITHM⟩ := rfl

/-- C3: for every claim set (with a string-typed subject claim, the only
kind the system issues) and every time-to-live, a token produced by
`create_access_token` and validated by `verify_token` strictly before its
expiration instant yields exactly the claim set given at issuance, modulo
the added `exp` claim. -/
theorem token_roundtrip_before_expiry (secretKey : String)
    (expireMinutesEnv : Option Nat) (data : Claims)
    (expires_delta : Option Nat) (nowIssue nowVerify : Nat)
    (hsub : ∀ t, dictGet data "sub" ≠ some (ClaimVal.time t))
    (hfresh : nowVerify < tokenExpiry expireMinutesEnv expires_delta nowIssue) :
    ∃ payload,
      verify_token secretKey
        (create_access_token secretKey expireMinutesEnv data expires_delta
          nowIssue) nowVerify = .ok payload ∧
      (∀ k, k ≠ "exp" → dictGet payload k = dictGet data k) ∧
      dictGet payload "exp" =
        some (ClaimVal.time
          (tokenExpiry expireMinutesEnv expires_delta nowIssue)) := by
  have hsub2 : dictGet (dictUpdate data "exp"
      (ClaimVal.time (tokenExpiry expireMinutesEnv expires_delta nowIssue)))
      "sub" = dictGet data "sub" :=
    dictGet_update_of_ne _ _ _ _ (by decide)
  have hnotle : ¬ tokenExpiry expireMinutesEnv expires_delta nowIssue
      ≤ nowVerify := Nat.not_le.mpr hfresh
  refine ⟨dictUpdate data "exp"
    (ClaimVal.time (tokenExpiry expireMinutesEnv expires_delta nowIssue)),
    ?_, ?_, ?_⟩
  · rw [create_access_token_eq]
    simp only [verify_token, jwt_decode, dictGet_update_self, hsub2,
      List.mem_singleton, ne_eq, not_true_eq_false, if_false, hnotle,
      ite_false]
  · intro k hk
    exact dictGet_update_of_ne _ _ _ _ hk
  · exact dictGet_update_self _ _ _

/-- C4: for any clock reading at or past the token's expiration instant,
`verify_token` fails, deterministically, with the 401 under which the
expired-token failure is surfaced (the code collapses the codec's
expired-signature error and its invalid-signature error into this single
response; at the codec level the failure is classified as an expired
signature whenever the token is well signed).  For clock readings strictly
before the expiration instant of a well-signed token (with a string-typed
subject claim), validation succeeds with the token's claim set. -/
theorem verify_token_expiry_boundary (secretKey : String) (tok : JWT)
    (now e : Nat) :
    (dictGet tok.payload "exp" = some (ClaimVal.time e) → e ≤ now →
      verify_token secretKey tok now = .error tokenInvalidOrExpiredErr) ∧
    (tok.alg = ALGORITHM → tok.key = secretKey →
      dictGet tok.payload "exp" = some (ClaimVal.time e) → e ≤ now →
      jwt_decode secretKey [ALGORITHM] tok now =
        .error JoseError.expiredSignature) ∧
    (tok.alg = ALGORITHM → tok.key = secretKey →
      dictGet tok.payload "exp" = some (ClaimVal.time e) → now < e →
      (∀ t, dictGet tok.payload "sub" ≠ some (ClaimVal.time t)) →
      verify_token secretKey tok now = .ok tok.payload) := by
  refine ⟨?_, ?_, ?_⟩
  · intro hexp hle
    unfold verify_token jwt_decode
    by_cases halg : tok.alg = ALGORITHM
    · by_cases hkey : tok.key = secretKey
      · simp [halg, hkey, hexp, hle]
      · simp [halg, hkey]
    · simp [halg]
  · intro halg hkey hexp hle
    unfold jwt_decode
    simp [halg, hkey, hexp, hle]
  · intro halg hkey hexp hlt hsub
    have hnotle : ¬ e ≤ now := Nat.not_le.mpr hlt
    unfold verify_token jwt_decode
    simp [halg, hkey, hexp, hnotle]

/-- C5: a token signed with a secret key different from the server's
current key always fails `verify_token` (with the 401 under which the
codec's invalid-signature failure is surfaced; at the codec level the
failure is an invalid signature whenever the algorithm matches).
Consequently any token previously issued by `create_access_token` under an
old key fails validation under a new, different key, at every clock
reading. -/
theorem verify_token_wrong_key (secretKey : String) (tok : JWT) (now : Nat)
    (expireMinutesEnv : Option Nat) (data : Claims)
    (expires_delta : Option Nat) (oldKey : String) (nowIssue nowVerify : Nat) :
    (tok.key ≠ secretKey →
      verify_token secretKey tok now = .error tokenInvalidOrExpiredErr) ∧
    (tok.key ≠ secretKey → tok.alg = ALGORITHM →
      jwt_decode secretKey [ALGORITHM] tok now =
        .error JoseError.invalidSignature) ∧
    (oldKey ≠ secretKey →
      verify_token secretKey
        (create_access_token oldKey expireMinutesEnv data expires_delta
          nowIssue) nowVerify = .error tokenInvalidOrExpiredErr) := by
  have hbase : ∀ t : JWT, ∀ n : Nat, t.key ≠ secretKey →
      verify_token secretKey t n = .error tokenInvalidOrExpiredErr := by
    intro t n hkey
    unfold verify_token jwt_decode
    by_cases halg : t.alg = ALGORITHM
    · simp [halg, hkey]
    · simp [halg]
  refine ⟨hbase tok now, ?_, ?_⟩
  · intro hkey halg
    unfold jwt_decode
    simp [halg, hkey]
  · intro hne
    exact hbase _ nowVerify (by rw [create_access_token_eq]; exact hne)

/-- C1: over any credential store whose stored hashes are well-formed (as
registration guarantees), `authenticate_user` returns the stored user
exactly when the lookup finds a user with that username, the password
verifies against that user's stored hash, and the user's active flag is
true; for any other input it returns `None`, and in particular it returns
`None` — it never raises — when the username is unknown. -/
theorem authenticate_user_spec (store : UserStore)
    (hwf : ∀ u ∈ store, ∃ s q, u.hashed_password = HashStr.bcryptHash s q)
    (username password : String) :
    (∀ user, authenticate_user store username password = .ok (some user) ↔
      (get_user_by_username store username = some user ∧
       verify_password password user.hashed_password = .ok true ∧
       user.is_active = true)) ∧
    ((¬ ∃ user, get_user_by_username store username = some user ∧
        verify_password password user.hashed_password = .ok true ∧
        user.is_active = true) →
      authenticate_user store username password = .ok none) ∧
    (get_user_by_username store username = none →
      authenticate_user store username password = .ok none) := by
  cases hfind : get_user_by_username store username with
  | none =>
      refine ⟨?_, ?_, ?_⟩
      · intro user
        constructor
        · intro h
          simp [authenticate_user, hfind] at h
        · rintro ⟨h1, -, -⟩
          exact Option.noConfusion h1
      · intro _
        simp [authenticate_user, hfind]
      · intro _
        simp [authenticate_user, hfind]
  | some u =>
      have hfind2 : store.find? (fun x => x.username == username) = some u :=
        hfind
      have hu : u ∈ store := List.mem_of_find?_eq_some hfind2
      obtain ⟨s, q, hq⟩ := hwf u hu
      have hv : verify_password password u.hashed_password
          = .ok (password == q) := by rw [hq]; rfl
      refine ⟨?_, ?_, ?_⟩
      · intro user
        constructor
        · intro h
          by_cases hpw : (password == q) = true
          · by_cases hact : u.is_active = true
            · have huser : u = user := by
                simp [authenticate_user, hfind, hv, hpw, hact] at h
                exact h
              subst huser
              exact ⟨rfl, by rw [hv, hpw], hact⟩
            · exfalso
              simp [authenticate_user, hfind, hv, hpw, hact] at h
          · exfalso
            simp [authenticate_user, hfind, hv, hpw] at h
        · rintro ⟨h1, h2, h3⟩
          have huser : user = u := by
            injection h1 with h1x
            exact h1x.symm
          subst huser
          rw [hv] at h2
          injection h2 with h2x
          simp [authenticate_user, hfind, hv, h2x, h3]
      · intro hnone
        by_cases hpw : (password == q) = true
        · by_cases hact : u.is_active = true
          · exact absurd ⟨u, rfl, by rw [hv, hpw], hact⟩ hnone
          · simp [authenticate_user, hfind, hv, hpw, hact]
        · simp [authenticate_user, hfind, hv, hpw]
      · intro h
        exact Option.noConfusion h

/-- C2: the authorization middleware (`HTTPBearer` extraction,
`get_current_user`, `get_current_active_user`) equals the spec's linear
pipeline: missing credential → 403; token validation failure → the
propagated 401; absent subject claim → 401; unknown subject → 401;
inactive user → 400; and only when every check passes is the resolved user
returned — on any failure the handler never receives a user. -/
theorem middleware_order_refines_spec (secretKey : String)
    (store : UserStore) (now : Nat) (cred : Option JWT) :
    get_current_active_user secretKey store now cred =
      authMiddlewareSpec secretKey store now cred := by
  cases cred with
  | none => rfl
  | some token =>
      simp only [get_current_active_user, get_current_user,
        authMiddlewareSpec]
      cases verify_token secretKey token now with
      | error e => rfl
      | ok payload =>
          dsimp only
          cases dictGet payload "sub" with
          | none => rfl
          | some v =>
              cases v with
              | time t => rfl
              | str subject =>
                  dsimp only
                  cases get_user_by_username store subject with
                  | none => rfl
                  | some user =>
                      dsimp only
                      cases user.is_active <;> rfl

/-- C6: if a user's active flag is false, then any still-unexpired token
issued for that user (the login payload `{"sub": username}`, signed with
the server key) still passes `verify_token` — it remains cryptographically
valid — yet the authorization attempt through the middleware fails with
the 400 inactive-user error. -/
theorem deactivated_user_token_rejected (secretKey : String)
    (expireMinutesEnv : Option Nat) (store : UserStore) (user : Usuario)
    (expires_delta : Option Nat) (nowIssue nowVerify : Nat)
    (hfind : get_user_by_username store user.username = some user)
    (hinactive : user.is_active = false)
    (hfresh : nowVerify <
      tokenExpiry expireMinutesEnv expires_delta nowIssue) :
    (verify_token secretKey
      (create_access_token secretKey expireMinutesEnv
        [("sub", ClaimVal.str user.username)] expires_delta nowIssue)
      nowVerify = .ok (dictUpdate [("sub", ClaimVal.str user.username)]
        "exp" (ClaimVal.time
          (tokenExpiry expireMinutesEnv expires_delta nowIssue)))) ∧
    get_current_active_user secretKey store nowVerify
      (some (create_access_token secretKey expireMinutesEnv
        [("sub", ClaimVal.str user.username)] expires_delta nowIssue))
      = .error inactiveUserErr := by
  have hsub2 : dictGet (dictUpdate [("sub", ClaimVal.str user.username)]
      "exp" (ClaimVal.time (tokenExpiry expireMinutesEnv expires_delta
        nowIssue))) "sub" = some (ClaimVal.str user.username) := by
    rw [dictGet_update_of_ne _ _ _ _ (by decide)]
    rfl
  have hnotle : ¬ tokenExpiry expireMinutesEnv expires_delta nowIssue
      ≤ nowVerify := Nat.not_le.mpr hfresh
  have hok : verify_token secretKey
      (create_access_token secretKey expireMinutesEnv
        [("sub", ClaimVal.str user.username)] expires_delta nowIssue)
      nowVerify = .ok (dictUpdate [("sub", ClaimVal.str user.username)]
        "exp" (ClaimVal.time
          (tokenExpiry expireMinutesEnv expires_delta nowIssue))) := by
    rw [create_access_token_eq]
    simp only [verify_token, jwt_decode, dictGet_update_self, hsub2,
      List.mem_singleton, ne_eq, not_true_eq_false, if_false, hnotle,
      ite_false]
  refine ⟨hok, ?_⟩
  simp only [get_current_active_user, get_current_user, hok, hsub2, hfind,
    hinactive]
  rfl

/-- C7 counterexample: at the concrete malformed hash string
`"not-a-hash"`, `verify_password` propagates the hash-identification
error instead of returning the boolean `false`: the claim that it returns
a boolean for every hash string, reporting malformed input as false, is
false on the code. -/
theorem verify_password_malformed_raises :
    verify_password "abc" (HashStr.malformed "not-a-hash")
        = Except.error () ∧
    verify_password "abc" (HashStr.malformed "not-a-hash")
        ≠ Except.ok false := by
  refine ⟨rfl, ?_⟩
  intro h
  exact Except.noConfusion h

/-- C7 amended: `verify_password` returns a boolean verdict — false on any
mismatch — for every recognized (bcrypt-form) hash string, but on a
malformed hash string it raises the hash-identification error rather than
returning false. -/
theorem verify_password_amended (p s q : String) (salt : Nat) :
    verify_password p (HashStr.bcryptHash salt q) = Except.ok (p == q) ∧
    verify_password p (HashStr.malformed s) = Except.error () :=
  ⟨rfl, rfl⟩

/-- C8: hash-then-verify round-trips: verifying a password against its own
hash succeeds with true for every password, and verifying against the hash
of a different password yields false (under the ideal hasher model, which
abstracts bcrypt truncation and digest collisions). -/
theorem hash_verify_roundtrip (p q : String) (salt : Nat) :
    verify_password p (get_password_hash salt p) = Except.ok true ∧
    (p ≠ q → verify_password p (get_password_hash salt q)
      = Except.ok false) := by
  constructor
  · simp [verify_password, get_password_hash, cryptContext_verify,
      cryptContext_hash]
  · intro hne
    simp [verify_password, get_password_hash, cryptContext_verify,
      cryptContext_hash, hne]

theorem hash_verify_roundtrip_witness :
    verify_password "secret1" (get_password_hash 0 "secret1")
        = Except.ok true ∧
    verify_password "wrongpw" (get_password_hash 0 "secret1")
        = Except.ok false :=
  ⟨(hash_verify_roundtrip "secret1" "secret1" 0).1,
   (hash_verify_roundtrip "wrongpw" "secret1" 0).2 (by decide)⟩

/-- C9: a `/register` request whose password has fewer than 6 characters
is rejected at the public interface by the pydantic model's
`min_length=6` constraint: the endpoint returns the 422 validation error,
the store is unchanged, and no duplicate lookup, password hashing, or row
insertion is performed. -/
theorem register_short_password_rejected (store : UserStore)
    (salt newId : Nat) (raw : RawUsuarioCreate)
    (hshort : raw.password.length < 6) :
    registerEndpoint store salt newId raw =
      (.error ⟨422, "String should have at least 6 characters"⟩,
       store, []) := by
  simp [registerEndpoint, UsuarioCreate.validate, hshort]

theorem register_short_password_rejected_witness :
    ("12345" : String).length < 6 ∧
    registerEndpoint [] 0 1 ⟨"alice", "alice@example.com", "12345"⟩ =
      (.error ⟨422, "String should have at least 6 characters"⟩,
       [], []) :=
  ⟨by decide,
   register_short_password_rejected [] 0 1
     ⟨"alice", "alice@example.com", "12345"⟩ (by decide)⟩

/-- C10: `create_access_token` leaves the caller's dict unchanged: at the
heap level, `data.copy()` allocates a fresh object and the `exp` update
mutates only the copy, so after the call the object at the caller's
reference holds exactly the same bindings as before. -/
theorem create_access_token_frame (secretKey : String)
    (expireMinutesEnv : Option Nat) (heap : PyHeap) (dataRef : Nat)
    (expires_delta : Option Nat) (now : Nat)
    (href : dataRef < heap.objs.length) :
    ((createAccessTokenHeap secretKey expireMinutesEnv heap dataRef
        expires_delta now).2).objs[dataRef]? = heap.objs[dataRef]? := by
  unfold createAccessTokenHeap PyHeap.copyDict PyHeap.updateDict
  dsimp only
  rw [List.getElem?_set_ne (Nat.ne_of_gt href)]
  rw [List.getElem?_append]
  simp [href]

theorem authenticate_user_spec_witness :
    authenticate_user [⟨1, "alice", "alice@example.com",
        HashStr.bcryptHash 0 "secret1", true⟩] "alice" "secret1" =
      Except.ok (some ⟨1, "alice", "alice@example.com",
        HashStr.bcryptHash 0 "secret1", true⟩) :=
  ((authenticate_user_spec [⟨1, "alice", "alice@example.com",
      HashStr.bcryptHash 0 "secret1", true⟩]
    (by
      intro u hu
      rw [List.mem_singleton] at hu
      subst hu
      exact ⟨0, "secret1", rfl⟩)
    "alice" "secret1").1 ⟨1, "alice", "alice@example.com",
      HashStr.bcryptHash 0 "secret1", true⟩).mpr
    ⟨rfl, by simp [verify_password, cryptContext_verify], rfl⟩

theorem token_roundtrip_before_expiry_witness :
    ∃ payload, verify_token "k" (create_access_token "k" none
        [("sub", ClaimVal.str "alice")] (some 100) 0) 10 = .ok payload ∧
      (∀ k, k ≠ "exp" → dictGet payload k =
        dictGet [("sub", ClaimVal.str "alice")] k) ∧
      dictGet payload "exp" =
        some (ClaimVal.time (tokenExpiry none (some 100) 0)) :=
  token_roundtrip_before_expiry "k" none [("sub", ClaimVal.str "alice")]
    (some 100) 0 10
    (by intro t h; simp [dictGet, List.lookup] at h)
    (by decide)

theorem verify_token_expiry_boundary_witness :
    verify_token "k" ⟨[("exp", ClaimVal.time 50)], "k", ALGORITHM⟩ 50
        = .error tokenInvalidOrExpiredErr ∧
    jwt_decode "k" [ALGORITHM]
        ⟨[("exp", ClaimVal.time 50)], "k", ALGORITHM⟩ 50
        = .error JoseError.expiredSignature ∧
    verify_token "k" ⟨[("exp", ClaimVal.time 50),
        ("sub", ClaimVal.str "alice")], "k", ALGORITHM⟩ 49
        = .ok [("exp", ClaimVal.time 50), ("sub", ClaimVal.str "alice")] :=
  ⟨(verify_token_expiry_boundary "k"
      ⟨[("exp", ClaimVal.time 50)], "k", ALGORITHM⟩ 50 50).1 rfl
      (by decide),
   (verify_token_expiry_boundary "k"
      ⟨[("exp", ClaimVal.time 50)], "k", ALGORITHM⟩ 50 50).2.1 rfl rfl rfl
      (by decide),
   (verify_token_expiry_boundary "k" ⟨[("exp", ClaimVal.time 50),
      ("sub", ClaimVal.str "alice")], "k", ALGORITHM⟩ 49 50).2.2 rfl rfl
      rfl (by decide)
      (by intro t h; simp [dictGet, List.lookup] at h)⟩

theorem verify_token_wrong_key_witness :
    verify_token "newkey" ⟨[], "oldkey", ALGORITHM⟩ 0
        = .error tokenInvalidOrExpiredErr ∧
    jwt_decode "newkey" [ALGORITHM] ⟨[], "oldkey", ALGORITHM⟩ 0
        = .error JoseError.invalidSignature ∧
    verify_token "newkey" (create_access_token "oldkey" none [] none 0) 0
        = .error tokenInvalidOrExpiredErr :=
  ⟨(verify_token_wrong_key "newkey" ⟨[], "oldkey", ALGORITHM⟩ 0 none []
      none "oldkey" 0 0).1 (by decide),
   (verify_token_wrong_key "newkey" ⟨[], "oldkey", ALGORITHM⟩ 0 none []
      none "oldkey" 0 0).2.1 (by decide) rfl,
   (verify_token_wrong_key "newkey" ⟨[], "oldkey", ALGORITHM⟩ 0 none []
      none "oldkey" 0 0).2.2 (by decide)⟩

theorem deactivated_user_token_rejected_witness :
    get_current_active_user "k" [⟨1, "alice", "alice@example.com",
        HashStr.bcryptHash 0 "secret1", false⟩] 10
      (some (create_access_token "k" none [("sub", ClaimVal.str "alice")]
        (some 100) 0)) = .error inactiveUserErr :=
  (deactivated_user_token_rejected "k" none
    [⟨1, "alice", "alice@example.com",
      HashStr.bcryptHash 0 "secret1", false⟩]
    ⟨1, "alice", "alice@example.com",
      HashStr.bcryptHash 0 "secret1", false⟩
    (some 100) 0 10 rfl rfl (by decide)).2

theorem create_access_token_frame_witness :
    (0 : Nat) <
      (PyHeap.mk [[("sub", ClaimVal.str "alice")]]).objs.length ∧
    ((createAccessTokenHeap "k" none
        ⟨[[("sub", ClaimVal.str "alice")]]⟩ 0 (some 100) 0).2).objs[0]?
      = (PyHeap.mk [[("sub", ClaimVal.str "alice")]]).objs[0]? :=
  ⟨by decide,
   create_access_token_frame "k" none
     ⟨[[("sub", ClaimVal.str "alice")]]⟩ 0 (some 100) 0 (by decide)⟩
